import Mathlib

/-!
# Verification of the FOREX-Backtest support bot (`bot.py`)

Shallow embedding of the verification finite-state machine of `bot.py`
(`process_verification_step`, `handle_photo`, `create_company_ticket`)
and proofs about it.

Strings are modelled as lists of Unicode code points (`List Nat`); the
Python string operations used by the bot (`str.strip`, `str.lower`,
`str.upper`) and the two regular expressions that appear in the code
(`CR\d{5,8}` under `re.fullmatch`, `\d+(?:\.\d+)?` under `re.search`)
are implemented directly on that representation.  Time is modelled in
integer microseconds since the Unix epoch (CPython datetimes have
microsecond resolution); deposit amounts are exact rationals (the code
uses `float`, which agrees with exact decimal arithmetic on the short
decimal literals relevant here).
-/

namespace SupportBot

/-- Code points of a Lean string literal; used to transcribe the Python
string constants of `bot.py`. -/
def str (s : String) : List Nat := s.data.map Char.toNat

/-- Whitespace as recognised by Python's `str.strip()` (ASCII part:
tab, LF, VT, FF, CR, space). -/
def isSpace (c : Nat) : Bool :=
  c = 9 || c = 10 || c = 11 || c = 12 || c = 13 || c = 32

/-- `'0' ≤ c ≤ '9'`, the `\d` class of the bot's regexes (ASCII). -/
def isDigit (c : Nat) : Bool := 48 ≤ c && c ≤ 57

/-- Python `str.upper()` on one code point (ASCII letters). -/
def upperChar (c : Nat) : Nat := if 97 ≤ c ∧ c ≤ 122 then c - 32 else c

/-- Python `str.lower()` on one code point (ASCII letters). -/
def lowerChar (c : Nat) : Nat := if 65 ≤ c ∧ c ≤ 90 then c + 32 else c

/-- Python `str.upper()`. -/
def pyUpper (s : List Nat) : List Nat := s.map upperChar

/-- Python `str.lower()`. -/
def pyLower (s : List Nat) : List Nat := s.map lowerChar

/-- Python `str.strip()`: drop whitespace from both ends. -/
def pyStrip (s : List Nat) : List Nat :=
  ((s.dropWhile isSpace).reverse.dropWhile isSpace).reverse

/-- `re.fullmatch(r"CR\d{5,8}", s)`: the whole string is `CR` followed
by five to eight digits. -/
def isCRFormat (s : List Nat) : Bool :=
  match s with
  | 67 :: 82 :: rest =>
      rest.all isDigit && decide (5 ≤ rest.length) && decide (rest.length ≤ 8)
  | _ => false

/-- Value of a list of decimal digit code points, most significant first. -/
def digitsToNat (ds : List Nat) : Nat := ds.foldl (fun a c => a * 10 + (c - 48)) 0

/-- `float(re.search(r"\d+(?:\.\d+)?", s).group())`, as an exact rational:
the leftmost maximal digit run, optionally followed by `.` and a further
digit run; `none` when the text contains no digit. -/
def scanNumber : List Nat → Option ℚ
  | [] => none
  | c :: rest =>
    if isDigit c then
      let intRun := List.takeWhile isDigit (c :: rest)
      let afterInt := List.dropWhile isDigit (c :: rest)
      match afterInt with
      | 46 :: r2 =>
        let fracRun := List.takeWhile isDigit r2
        if fracRun.isEmpty then some (mkRat (digitsToNat intRun) 1)
        else some (mkRat (digitsToNat intRun * 10 ^ fracRun.length + digitsToNat fracRun)
          (10 ^ fracRun.length))
      | _ => some (mkRat (digitsToNat intRun) 1)
    else scanNumber rest

/-- Gregorian leap year (CPython `calendar`/`datetime` rule). -/
def isLeap (y : Nat) : Bool := y % 4 = 0 && (y % 100 ≠ 0 || y % 400 = 0)

/-- Number of days of month `m` (1-12) in year `y`. -/
def daysInMonth (y m : Nat) : Nat :=
  if m = 2 then (if isLeap y then 29 else 28)
  else if m = 4 ∨ m = 6 ∨ m = 9 ∨ m = 11 then 30
  else 31

/-- The `%Y` directive of `strptime`: exactly four decimal digits. -/
def parseYear4 : List Nat → Option (Nat × List Nat)
  | a :: b :: c :: d :: r =>
      if isDigit a && isDigit b && isDigit c && isDigit d then
        some (digitsToNat [a, b, c, d], r)
      else none
  | _ => none

/-- The `%m` directive of `strptime`: regex `1[0-2]|0[1-9]|[1-9]`,
alternatives tried left to right. -/
def parseMonth : List Nat → Option (Nat × List Nat)
  | a :: b :: r =>
      if a = 49 ∧ 48 ≤ b ∧ b ≤ 50 then some (10 + (b - 48), r)
      else if a = 48 ∧ 49 ≤ b ∧ b ≤ 57 then some (b - 48, r)
      else if 49 ≤ a ∧ a ≤ 57 then some (a - 48, b :: r)
      else none
  | [a] => if 49 ≤ a ∧ a ≤ 57 then some (a - 48, []) else none
  | [] => none

/-- The `%d` directive of `strptime`: regex `3[01]|[12]\d|0[1-9]|[1-9]`,
alternatives tried left to right. -/
def parseDayOfMonth : List Nat → Option (Nat × List Nat)
  | a :: b :: r =>
      if a = 51 ∧ (b = 48 ∨ b = 49) then some (30 + (b - 48), r)
      else if (a = 49 ∨ a = 50) ∧ isDigit b then some ((a - 48) * 10 + (b - 48), r)
      else if a = 48 ∧ 49 ≤ b ∧ b ≤ 57 then some (b - 48, r)
      else if 49 ≤ a ∧ a ≤ 57 then some (a - 48, b :: r)
      else none
  | [a] => if 49 ≤ a ∧ a ≤ 57 then some (a - 48, []) else none
  | [] => none

/-- `datetime.strptime(s, "%Y-%m-%d")`: the year, month and day
directives separated by literal hyphens, consuming the whole string,
followed by the `datetime` constructor's calendar validation
(`MINYEAR = 1`, day at most the month's length). -/
def parseDateYMD (s : List Nat) : Option (Nat × Nat × Nat) :=
  match parseYear4 s with
  | some (y, 45 :: r1) =>
    match parseMonth r1 with
    | some (m, 45 :: r2) =>
      match parseDayOfMonth r2 with
      | some (d, []) =>
          if 1 ≤ y ∧ 1 ≤ d ∧ d ≤ daysInMonth y m then some (y, m, d) else none
      | _ => none
    | _ => none
  | _ => none

/-- Days from 1970-01-01 to year `y`, month `m`, day `d` (proleptic
Gregorian; Howard Hinnant's `days_from_civil`). -/
def daysFromCivil (y m d : Nat) : ℤ :=
  let y' : ℤ := if m ≤ 2 then (y : ℤ) - 1 else (y : ℤ)
  let era : ℤ := y' / 400
  let yoe : ℤ := y' - era * 400
  let mp : ℤ := if 2 < m then (m : ℤ) - 3 else (m : ℤ) + 9
  let doy : ℤ := (153 * mp + 2) / 5 + (d : ℤ) - 1
  let doe : ℤ := yoe * 365 + yoe / 4 - yoe / 100 + doy
  era * 146097 + doe - 719468

/-- The result of `datetime.strptime(text, "%Y-%m-%d")` as days since
the epoch (the parsed datetime is the midnight of that date), or `none`
when a `ValueError` is raised. -/
def parseDate (s : List Nat) : Option ℤ :=
  (parseDateYMD s).map fun ymd => daysFromCivil ymd.1 ymd.2.1 ymd.2.2

/-- Civil date of epoch day `z` (Hinnant's `civil_from_days`,
restricted to the nonnegative epoch days the bot runs at). -/
def civilFromDays (day : Nat) : Nat × Nat × Nat :=
  let z := day + 719468
  let era := z / 146097
  let doe := z % 146097
  let yoe := (doe - doe / 1460 + doe / 36524 - doe / 146096) / 365
  let y := yoe + era * 400
  let doy := doe - (365 * yoe + yoe / 4 - yoe / 100)
  let mp := (5 * doy + 2) / 153
  let d := doy - (153 * mp + 2) / 5 + 1
  let m := if mp < 10 then mp + 3 else mp - 9
  (if m ≤ 2 then y + 1 else y, m, d)

/-- Little-endian fixed-width decimal digits of `n`. -/
def padLE : Nat → Nat → List Nat
  | 0, _ => []
  | w + 1, n => (48 + n % 10) :: padLE w (n / 10)

/-- `n` rendered as exactly `w` zero-padded decimal digit code points
(Python `f"{n:0wd}"` for `n < 10^w`, and `strftime` field padding). -/
def padDigits (w n : Nat) : List Nat := (padLE w n).reverse

/-- Ticket id of `create_company_ticket` / `process_ticket_input`:
`f"TKT-{utcnow().strftime('%Y%m%d')}-{int(utcnow().timestamp())%100000:05d}"`,
as a function of the current Unix time `t` in whole seconds (the
process clock is assumed to sit in the UTC timezone, so that
`utcnow().timestamp()` is the Unix time). -/
def genTicketId (t : Nat) : List Nat :=
  let ymd := civilFromDays (t / 86400)
  str "TKT-" ++ padDigits 4 ymd.1 ++ padDigits 2 ymd.2.1 ++ padDigits 2 ymd.2.2
    ++ [45] ++ padDigits 5 (t % 100000)

/-- `VIP_CR_WHITELIST`: the static affiliate registry of `bot.py`. -/
def VIP_CR_WHITELIST : List (List Nat) :=
  ([
    "CR3648598", "CR3654244", "CR3654335", "CR3762108", "CR3845409", "CR3925151",
    "CR4085158", "CR4090372", "CR4138661", "CR4210749", "CR4296364", "CR4373296",
    "CR4488218", "CR4583558", "CR4655132", "CR4965219", "CR4985194", "CR5053549",
    "CR5076079", "CR5085020", "CR5107260", "CR5107344", "CR5108974", "CR5115383",
    "CR5121522", "CR5124042", "CR5127519", "CR5128799", "CR5128821", "CR5128906",
    "CR5131270", "CR5131273", "CR5140283", "CR5140335", "CR5140339", "CR5140709",
    "CR5141478", "CR5145112", "CR5145144", "CR5146592", "CR5146651", "CR5149678",
    "CR5150548", "CR5150792", "CR5151132", "CR5152411", "CR5156334", "CR5168586",
    "CR5168665", "CR5171621", "CR5171935", "CR5172416", "CR5174518", "CR5175283",
    "CR5175357", "CR5175623", "CR5176885", "CR5178412", "CR5182098", "CR5183689",
    "CR5191512", "CR5191516", "CR5192564", "CR5192768", "CR5195948", "CR5195953",
    "CR5195954", "CR5196405", "CR5201751", "CR5201863", "CR5208742", "CR5208818",
    "CR5209139", "CR5211727", "CR5217038", "CR5217041", "CR5217294", "CR5217716",
    "CR5217806", "CR5217841", "CR5218145", "CR5218709", "CR5220504", "CR5221257",
    "CR5222812", "CR5224492", "CR5230088", "CR5232901", "CR5234722", "CR5242731",
    "CR5247338", "CR5250590", "CR5253563", "CR5253566", "CR5253922", "CR5268275",
    "CR5273673", "CR5273869", "CR5276090", "CR5276310", "CR5281994", "CR5283490",
    "CR5283554", "CR5283705", "CR5283721", "CR5291732", "CR5298913", "CR5299111",
    "CR5299430", "CR5303230", "CR5304118", "CR5304735", "CR5305240", "CR5305810",
    "CR5310002", "CR5317151", "CR5321069", "CR5324653", "CR5325581", "CR5327120",
    "CR5328157", "CR5337678", "CR5337712", "CR5337783", "CR5337784", "CR5337791",
    "CR5337793", "CR5376438", "CR5383018", "CR5404655", "CR5421490", "CR5431311",
    "CR5442253", "CR5442355", "CR5442531", "CR5442605", "CR5444280", "CR5445094",
    "CR5446889", "CR5455669", "CR5466632", "CR5466762", "CR5471054", "CR5477031",
    "CR5485897", "CR5487026", "CR5487767", "CR5487928", "CR5488506", "CR5491460",
    "CR5499637", "CR5500382", "CR5529877", "CR5535613", "CR5544922", "CR5551288",
    "CR5552176", "CR5556284", "CR5556287", "CR5559722", "CR5561483", "CR5563616",
    "CR5576367", "CR5577880", "CR5583683", "CR5585327", "CR5589802", "CR5592846",
    "CR5594968", "CR5595416", "CR5597602", "CR5605478", "CR5607701", "CR5616548",
    "CR5616657", "CR5617024", "CR5618746", "CR5634872", "CR5638055", "CR5658165",
    "CR5662243", "CR5681280", "CR5686151", "CR5693620", "CR5694136", "CR5729218",
    "CR5729228", "CR5729255", "CR5734377", "CR5734685", "CR5734864", "CR5747075",
    "CR5751222", "CR5755906", "CR5784782", "CR5786213", "CR5786969", "CR5799865",
    "CR5799868", "CR5799916", "CR5822964", "CR5836935", "CR5836938", "CR5839647",
    "CR5839797", "CR5845914", "CR5851342", "CR5851788", "CR5859465", "CR5864046",
    "CR5873762", "CR5881030", "CR5882107", "CR5886556", "CR5890102", "CR5924066",
    "CR5930200", "CR5970531", "CR6007156", "CR6012579", "CR6012919", "CR6022355",
    "CR6024318", "CR6037913", "CR6043787", "CR6077426", "CR6086720", "CR6094490",
    "CR6102922", "CR6128596", "CR6135793", "CR6141138", "CR6141427", "CR6141685",
    "CR6142172", "CR6142245", "CR6143176", "CR6146767", "CR6146888", "CR6154878",
    "CR6156707", "CR6158587", "CR6167387", "CR6172824", "CR6174976", "CR6181075",
    "CR6181076", "CR6182660", "CR6194673", "CR6198415", "CR6200366", "CR6209246",
    "CR6268178", "CR6283228", "CR6295186", "CR6299453", "CR6300261", "CR6301714",
    "CR6303536", "CR6313536", "CR6316942", "CR6316943", "CR6316945", "CR6321295",
    "CR6330598", "CR6341042", "CR6352212", "CR6379985", "CR6384361", "CR6399552",
    "CR6399574", "CR6401733", "CR6403902", "CR6408968", "CR6413389", "CR6423099",
    "CR6423523", "CR6439217", "CR6462778", "CR6474692", "CR6487699", "CR6505876",
    "CR6514641", "CR6520436", "CR6520451", "CR6523858", "CR6524558", "CR6528520",
    "CR6532131", "CR6532137", "CR6532275", "CR6610101", "CR6620010", "CR6653814",
    "CR6667537", "CR6669363", "CR6669366", "CR6675564", "CR6676337", "CR6676341",
    "CR6682471", "CR6691842", "CR6691852", "CR6706694", "CR6710741", "CR6756501",
    "CR6756521", "CR6762445", "CR6771489", "CR6772496", "CR6799617", "CR6800730",
    "CR6828268", "CR6973584", "CR6978912", "CR6983840", "CR6984178", "CR6994219",
    "CR7016028", "CR7044018", "CR7052204", "CR7112762", "CR7114951", "CR7124896",
    "CR7237163", "CR7283876", "CR7283878", "CR7310563", "CR7380411", "CR7381612",
    "CR7383923", "CR7383924", "CR7383926", "CR7443452", "CR7462159", "CR7496923",
    "CR7514165", "CR7619347", "CR7625010", "CR7655242", "CR7707424", "CR7708242",
    "CR7792475", "CR7814776", "CR7816651", "CR7817244", "CR7818330", "CR8010847",
    "CR8036589", "CR8047034", "CR8052255", "CR8581785", "CR8644473", "CR8648274",
    "CR8661054"
  ]).map str

/-- The two verification flows (`state["flow"]`). -/
inductive Flow
  | derivVip
  | mentorship
deriving DecidableEq, Repr

/-- The fields the FSM ever writes into `state["data"]`:
`created_date` (stored as the ISO rendering of the parsed date; modelled
by its epoch-day value) and `cr`. -/
structure SessionData where
  createdDate : Option ℤ := none
  cr : Option (List Nat) := none
deriving DecidableEq, Repr

/-- One entry of `pending_verifications`:
`{"flow": str, "step": int, "data": {...}}`. -/
structure Session where
  flow : Flow
  step : Nat
  data : SessionData
deriving DecidableEq, Repr

/-- The distinct user-facing replies sent by `process_verification_step`
and `handle_photo`, identified by site. -/
inductive Msg
  | answerYesNo
  | createAccountFirst
  | askCreationDate
  | dateFormatRetry
  | accountTooYoung
  | askCRNumber
  | invalidCRFormat
  | whitelistedAskProof
  | notInListAskPartner
  | replyYesNo
  | partnerAskProof
  | taggingGuide
  | sendAsImage
  | sendAmountNumber
  | depositBelowMinimum
  | vipSuccess
  | mentorshipDepositFirst
  | provideValidCROrDone
  | mentorshipAskProof
  | sendAmountPlain
  | depositMin50
  | mentorshipSuccess
  | didNotUnderstand
  | screenshotReceived
  | sendDepositAmountVip
  | sendDepositAmountMentorship
deriving DecidableEq, Repr

/-- The data a `create_company_ticket` call receives from the FSM that
the claims depend on: the category string, the deposit amount embedded
in the description, and the CR number embedded in the description. -/
structure Ticket where
  category : List Nat
  amount : ℚ
  cr : Option (List Nat)
deriving DecidableEq, Repr

/-- Observable outcome of one inbound event: the session left in
`pending_verifications` (`none` = deleted), the ticket handed to
`create_company_ticket` (if any), and the replies sent, in order.
When the persistence write inside `create_company_ticket` raises, the
exception propagates out of the handler before any later statement
runs, so only the replies already sent appear. -/
structure StepResult where
  session : Option Session
  ticket : Option Ticket
  replies : List Msg
deriving DecidableEq, Repr

/-- `REQUIRED_DERIV_DEPOSIT` of `bot.py`. -/
def REQUIRED_DERIV_DEPOSIT : ℚ := 50

/-- `process_verification_step` of `bot.py` (lines 1195-1363), for a
user with an open session `s`.  `insertOk` is the outcome of the
`insert_one` call inside `create_company_ticket` (`false`: the write
raises and the exception propagates, so the session is neither advanced
nor deleted and no further reply is sent).  `nowUs` is
`datetime.utcnow()` in microseconds since the epoch. -/
def processVerificationStep (insertOk : Bool) (nowUs : ℤ) (s : Session)
    (rawText : List Nat) : StepResult :=
  let text := pyStrip rawText
  match s.flow with
  | .derivVip =>
    if s.step = 1 then
      if pyLower text ∉ [str "yes", str "no", str "y", str "n"] then
        ⟨some s, none, [.answerYesNo]⟩
      else if pyLower text ∈ [str "no", str "n"] then
        ⟨none, none, [.createAccountFirst]⟩
      else
        ⟨some { s with step := 2 }, none, [.askCreationDate]⟩
    else if s.step = 2 then
      match parseDate text with
      | none => ⟨some s, none, [.dateFormatRetry]⟩
      | some d =>
        if nowUs - d * 86400000000 < 86400000000 then
          ⟨none, none, [.accountTooYoung]⟩
        else
          ⟨some { flow := s.flow, step := 3, data := { s.data with createdDate := some d } },
            none, [.askCRNumber]⟩
    else if s.step = 3 then
      let up := pyUpper text
      if ¬ isCRFormat up then
        ⟨some s, none, [.invalidCRFormat]⟩
      else
        let data' := { s.data with cr := some up }
        if up ∈ VIP_CR_WHITELIST then
          ⟨some { flow := s.flow, step := 4, data := data' }, none, [.whitelistedAskProof]⟩
        else
          ⟨some { flow := s.flow, step := 30, data := data' }, none, [.notInListAskPartner]⟩
    else if s.step = 30 then
      if pyLower text ∉ [str "yes", str "no", str "y", str "n"] then
        ⟨some s, none, [.replyYesNo]⟩
      else if pyLower text ∈ [str "yes", str "y"] then
        ⟨some { s with step := 31 }, none, [.partnerAskProof]⟩
      else
        ⟨none, none, [.taggingGuide]⟩
    else if s.step = 4 ∨ s.step = 31 then
      ⟨some s, none, [.sendAsImage]⟩
    else if s.step = 5 then
      match scanNumber text with
      | none => ⟨some s, none, [.sendAmountNumber]⟩
      | some amount =>
        if amount < REQUIRED_DERIV_DEPOSIT then
          ⟨none, none, [.depositBelowMinimum]⟩
        else if insertOk then
          ⟨none, some ⟨str "Deriv VIP", amount, s.data.cr⟩, [.vipSuccess]⟩
        else
          ⟨some s, none, []⟩
    else
      ⟨none, none, [.didNotUnderstand]⟩
  | .mentorship =>
    if s.step = 1 then
      if pyLower text = str "done" then
        ⟨some { s with step := 2 }, none, [.mentorshipDepositFirst]⟩
      else if ¬ isCRFormat (pyUpper text) then
        ⟨some s, none, [.provideValidCROrDone]⟩
      else
        ⟨some { flow := s.flow, step := 2, data := { s.data with cr := some (pyUpper text) } },
          none, [.mentorshipAskProof]⟩
    else if s.step = 3 then
      match scanNumber text with
      | none => ⟨some s, none, [.sendAmountPlain]⟩
      | some amount =>
        if amount < 50 then
          ⟨none, none, [.depositMin50]⟩
        else if insertOk then
          ⟨none, some ⟨str "Free Mentorship", amount, s.data.cr⟩, [.mentorshipSuccess]⟩
        else
          ⟨some s, none, []⟩
    else
      ⟨none, none, [.didNotUnderstand]⟩

/-- `handle_photo` of `bot.py` (lines 1368-1413): `sess` is the entry of
`pending_verifications` for the sending user (`none` when absent),
`caption` is `update.message.caption` (`None` &rarr; `""`). -/
def handlePhoto (insertOk : Bool) (sess : Option Session)
    (caption : Option (List Nat)) : StepResult :=
  match sess with
  | none => ⟨none, none, []⟩
  | some st =>
    if st.flow = .derivVip ∧ (st.step = 4 ∨ st.step = 31) then
      match scanNumber (caption.getD []) with
      | some amount =>
        if REQUIRED_DERIV_DEPOSIT ≤ amount then
          if insertOk then
            ⟨none, some ⟨str "Deriv VIP", amount, st.data.cr⟩,
              [.screenshotReceived, .vipSuccess]⟩
          else
            ⟨some st, none, [.screenshotReceived]⟩
        else
          ⟨some { st with step := 5 }, none, [.screenshotReceived, .sendDepositAmountVip]⟩
      | none =>
          ⟨some { st with step := 5 }, none, [.screenshotReceived, .sendDepositAmountVip]⟩
    else if st.flow = .mentorship ∧ st.step = 2 then
      match scanNumber (caption.getD []) with
      | some amount =>
        if (50 : ℚ) ≤ amount then
          if insertOk then
            ⟨none, some ⟨str "Free Mentorship", amount, st.data.cr⟩,
              [.screenshotReceived, .mentorshipSuccess]⟩
          else
            ⟨some st, none, [.screenshotReceived]⟩
        else
          ⟨some { st with step := 3 }, none,
            [.screenshotReceived, .sendDepositAmountMentorship]⟩
      | none =>
          ⟨some { st with step := 3 }, none,
            [.screenshotReceived, .sendDepositAmountMentorship]⟩
    else
      ⟨some st, none, [.screenshotReceived]⟩

/-- The affiliate-registry membership test as the code performs it at
step 3 of the Broker-VIP flow: the inbound text is stripped
(line 1199) and uppercased (line 1250) before the set lookup
(line 1256). -/
def isEligible (code : List Nat) : Bool :=
  decide (pyUpper (pyStrip code) ∈ VIP_CR_WHITELIST)

/-! ## Helper lemmas on the string model -/

theorem upperChar_idem (c : Nat) : upperChar (upperChar c) = upperChar c := by
  unfold upperChar
  split_ifs <;> omega

theorem isSpace_upperChar (c : Nat) : isSpace (upperChar c) = isSpace c := by
  unfold upperChar
  split_ifs with h
  · have h1 : isSpace (c - 32) = false := by simp [isSpace]; omega
    have h2 : isSpace c = false := by simp [isSpace]; omega
    rw [h1, h2]
  · rfl

theorem pyUpper_idem (s : List Nat) : pyUpper (pyUpper s) = pyUpper s := by
  unfold pyUpper
  rw [List.map_map]
  exact List.map_congr_left fun c _ => upperChar_idem c

theorem dropWhile_pyUpper (s : List Nat) :
    List.dropWhile isSpace (pyUpper s) = pyUpper (List.dropWhile isSpace s) := by
  unfold pyUpper
  rw [List.dropWhile_map]
  have : (isSpace ∘ upperChar) = isSpace := funext fun c => isSpace_upperChar c
  rw [this]

theorem pyStrip_pyUpper (s : List Nat) : pyStrip (pyUpper s) = pyUpper (pyStrip s) := by
  unfold pyStrip
  rw [dropWhile_pyUpper]
  unfold pyUpper
  rw [← List.map_reverse, List.dropWhile_map]
  have : (isSpace ∘ upperChar) = isSpace := funext fun c => isSpace_upperChar c
  rw [this, ← List.map_reverse]

theorem dropWhile_pyStrip (s : List Nat) :
    List.dropWhile isSpace (pyStrip s) = pyStrip s := by
  unfold pyStrip
  set t := List.dropWhile isSpace s with ht
  set w := List.dropWhile isSpace t.reverse with hw
  have hhead : ∀ a, w.reverse.head? = some a → isSpace a = false := by
    intro a ha
    rw [List.head?_reverse] at ha
    rcases hw' : w with _ | ⟨b, v⟩
    · rw [hw'] at ha; simp at ha
    · have hne : w ≠ [] := by rw [hw']; simp
      obtain ⟨pre, hpre⟩ := (List.dropWhile_suffix (l := t.reverse) isSpace :
        List.dropWhile isSpace t.reverse <:+ t.reverse)
      rw [← hw] at hpre
      have hlast : t.reverse.getLast? = some a := by
        rw [← hpre, List.getLast?_append_of_ne_nil _ hne]; exact ha
      have hth : t.head? = some a := by
        have := List.head?_reverse t.reverse
        rw [List.reverse_reverse] at this
        rw [this, hlast]
      have hnot := List.head?_dropWhile_not isSpace s
      rw [← ht, hth] at hnot
      exact hnot
  rcases hu : w.reverse with _ | ⟨b, v⟩
  · simp
  · have hb : isSpace b = false := hhead b (by rw [hu]; rfl)
    rw [List.dropWhile_cons_of_neg (by simp [hb])]

theorem pyStrip_idem (s : List Nat) : pyStrip (pyStrip s) = pyStrip s := by
  conv_lhs => rw [pyStrip]
  rw [dropWhile_pyStrip]
  have h2 : List.dropWhile isSpace (pyStrip s).reverse = (pyStrip s).reverse := by
    unfold pyStrip
    rw [List.reverse_reverse, List.dropWhile_idempotent]
  rw [h2, List.reverse_reverse]

/-- C8: the registry test applied to `c` agrees with the registry test
applied to `trim(uppercase(c))`, because the pipeline normalizes its
input (strip, then uppercase) before the lookup; in particular
`" cr5499637 "` and `"CR5499637"` test equal (both eligible). -/
theorem wvip_c8_registry_normalization (c : List Nat) :
    isEligible c = isEligible (pyStrip (pyUpper c)) ∧
    isEligible (str " cr5499637 ") = isEligible (str "CR5499637") ∧
    isEligible (str " cr5499637 ") = true := by
  refine ⟨?_, by decide, by decide⟩
  unfold isEligible
  have key : pyUpper (pyStrip (pyStrip (pyUpper c))) = pyUpper (pyStrip c) := by
    rw [pyStrip_idem, pyStrip_pyUpper, pyUpper_idem]
  rw [key]

/-! ## Ticket id generation (C2) -/

theorem padLE_inj (w : Nat) : ∀ n m, n < 10 ^ w → m < 10 ^ w →
    padLE w n = padLE w m → n = m := by
  induction w with
  | zero => intro n m hn hm _; simp [pow_zero] at hn hm; omega
  | succ w ih =>
    intro n m hn hm h
    rw [padLE, padLE, List.cons.injEq] at h
    have hn' : n / 10 < 10 ^ w := by
      rw [pow_succ] at hn; omega
    have hm' : m / 10 < 10 ^ w := by
      rw [pow_succ] at hm; omega
    have := ih (n / 10) (m / 10) hn' hm' h.2
    omega

/-- C2 (counterexample to the claim as stated): the generated ticket id
is a function of the current whole second alone, so two creation calls
that complete within the same process tick receive the *same* id, not
distinct ones; shown at the concrete tick 1731542400 (2024-11-14
00:00:00 UTC). -/
theorem wvip_c2_counterexample :
    ¬ (genTicketId 1731542400 ≠ genTicketId 1731542400) ∧
    genTicketId 1731542400 = str "TKT-20241114-42400" := by
  exact ⟨fun h => h rfl, by decide⟩

/-- C2 (amended): ticket ids have the form `TKT-<YYYYMMDD>-<timestamp
mod 100000>`; two creation calls at *distinct* whole seconds of the same
UTC day receive distinct ids (calls within the same second collide). -/
theorem wvip_c2_amended_same_day_distinct (t₁ t₂ : Nat)
    (hday : t₁ / 86400 = t₂ / 86400) (hne : t₁ ≠ t₂) :
    genTicketId t₁ ≠ genTicketId t₂ := by
  intro heq
  unfold genTicketId at heq
  rw [hday] at heq
  have h1 := List.append_cancel_left heq
  unfold padDigits at h1
  have h6 := List.reverse_injective h1
  have h7 := padLE_inj 5 (t₁ % 100000) (t₂ % 100000)
    (by norm_num; omega) (by norm_num; omega) h6
  omega

/-- Witness for C2 (amended): one second apart within 2024-11-14. -/
theorem wvip_c2_amended_witness :
    1731542400 / 86400 = 1731542401 / 86400 ∧ (1731542400 : Nat) ≠ 1731542401 ∧
    genTicketId 1731542400 ≠ genTicketId 1731542401 :=
  ⟨by norm_num, by norm_num,
    wvip_c2_amended_same_day_distinct 1731542400 1731542401 (by norm_num) (by norm_num)⟩

/-! ## Broker-VIP flow: dates and yes/no gate (C5, C6, C9) -/

/-- C5: at AWAIT_CREATION_DATE (step 2) with a well-formed date `d`
(epoch day), an account age below one day aborts (session destroyed,
wait-and-retry message) and an age of at least one day advances to
AWAIT_AFFILIATE_CODE (step 3) with the date recorded in the session's
fields. -/
theorem wvip_c5_creation_date (insertOk : Bool) (nowUs : ℤ) (dataT : SessionData)
    (rawText : List Nat) (d : ℤ) (hd : parseDate (pyStrip rawText) = some d) :
    (nowUs - d * 86400000000 < 86400000000 →
      processVerificationStep insertOk nowUs ⟨.derivVip, 2, dataT⟩ rawText =
        ⟨none, none, [.accountTooYoung]⟩) ∧
    (86400000000 ≤ nowUs - d * 86400000000 →
      processVerificationStep insertOk nowUs ⟨.derivVip, 2, dataT⟩ rawText =
        ⟨some ⟨.derivVip, 3, { dataT with createdDate := some d }⟩, none, [.askCRNumber]⟩) := by
  constructor
  · intro hlt
    simp [processVerificationStep, hd, hlt]
  · intro hge
    have hnlt : ¬ (nowUs - d * 86400000000 < 86400000000) := by omega
    simp [processVerificationStep, hd, hnlt]

/-- Witness for C5: date 2024-01-01 seen from 2026-01-01 advances. -/
theorem wvip_c5_witness :
    parseDate (pyStrip (str "2024-01-01")) = some 19723 ∧
    processVerificationStep true 1767225600000000 ⟨.derivVip, 2, ⟨none, none⟩⟩
        (str "2024-01-01") =
      ⟨some ⟨.derivVip, 3, ⟨some 19723, none⟩⟩, none, [.askCRNumber]⟩ :=
  ⟨by decide,
    (wvip_c5_creation_date true 1767225600000000 ⟨none, none⟩ (str "2024-01-01") 19723
      (by decide)).2 (by decide)⟩

/-- C6: at AWAIT_ACCOUNT_CONFIRM (step 1), a "no"/"n" answer (after
strip and lowercase) destroys the session and creates no ticket,
whatever the prior fields. -/
theorem wvip_c6_no_aborts (insertOk : Bool) (nowUs : ℤ) (dataT : SessionData)
    (rawText : List Nat) (h : pyLower (pyStrip rawText) ∈ [str "no", str "n"]) :
    processVerificationStep insertOk nowUs ⟨.derivVip, 1, dataT⟩ rawText =
      ⟨none, none, [.createAccountFirst]⟩ := by
  have hin : pyLower (pyStrip rawText) ∈ [str "yes", str "no", str "y", str "n"] := by
    simp only [List.mem_cons, List.mem_singleton] at h ⊢
    tauto
  simp [processVerificationStep, hin, h]

/-- Witness for C6: the answer `" No "` with fields already collected. -/
theorem wvip_c6_witness :
    processVerificationStep true 0 ⟨.derivVip, 1, ⟨some 19723, some (str "CR5499637")⟩⟩
        (str " No ") = ⟨none, none, [.createAccountFirst]⟩ :=
  wvip_c6_no_aborts true 0 ⟨some 19723, some (str "CR5499637")⟩ (str " No ") (by decide)

/-- C9: at AWAIT_CREATION_DATE, a well-formed date strictly in the
future is not treated as malformed: it parses, its (negative) age is
below one day, and the session aborts with the wait-and-retry
message. -/
theorem wvip_c9_future_date (insertOk : Bool) (nowUs : ℤ) (dataT : SessionData)
    (rawText : List Nat) (d : ℤ) (hd : parseDate (pyStrip rawText) = some d)
    (hfut : nowUs < d * 86400000000) :
    processVerificationStep insertOk nowUs ⟨.derivVip, 2, dataT⟩ rawText =
      ⟨none, none, [.accountTooYoung]⟩ := by
  have hlt : nowUs - d * 86400000000 < 86400000000 := by omega
  simp [processVerificationStep, hd, hlt]

/-- Witness for C9: date 2030-01-01 seen from 2024-11-14. -/
theorem wvip_c9_witness :
    parseDate (pyStrip (str "2030-01-01")) = some 21915 ∧
    processVerificationStep true 1731542400000000 ⟨.derivVip, 2, ⟨none, none⟩⟩
        (str "2030-01-01") = ⟨none, none, [.accountTooYoung]⟩ :=
  ⟨by decide,
    wvip_c9_future_date true 1731542400000000 ⟨none, none⟩ (str "2030-01-01") 21915
      (by decide) (by decide)⟩

/-! ## Photos outside the proof steps (C10) -/

/-- C10: a photo at any step that is not a proof step leaves the
session (flow, step, fields) unchanged and creates no ticket (only the
unconditional acknowledgement is sent); a photo from a user with no
open session has no effect at all. -/
theorem wvip_c10_photo_frame (insertOk : Bool) (cap : Option (List Nat)) (s : Session)
    (h1 : ¬ (s.flow = .derivVip ∧ (s.step = 4 ∨ s.step = 31)))
    (h2 : ¬ (s.flow = .mentorship ∧ s.step = 2)) :
    handlePhoto insertOk (some s) cap = ⟨some s, none, [.screenshotReceived]⟩ ∧
    handlePhoto insertOk none cap = ⟨none, none, []⟩ := by
  refine ⟨?_, rfl⟩
  simp [handlePhoto, h1, h2]

/-- Witness for C10: a photo at the Broker-VIP yes/no step. -/
theorem wvip_c10_witness :
    handlePhoto true (some ⟨.derivVip, 1, ⟨none, none⟩⟩) (some (str "60")) =
      ⟨some ⟨.derivVip, 1, ⟨none, none⟩⟩, none, [.screenshotReceived]⟩ ∧
    handlePhoto true none (some (str "60")) = ⟨none, none, []⟩ :=
  wvip_c10_photo_frame true (some (str "60")) ⟨.derivVip, 1, ⟨none, none⟩⟩
    (by decide) (by decide)

/-! ## Deposit boundary (C7) -/

/-- C7: at every deposit-amount check (Broker-VIP text step 5,
mentorship text step 3, Broker-VIP photo steps 4/31, mentorship photo
step 2), an amount exactly equal to the minimum (50) is accepted — a
ticket is created — and an amount strictly below it is rejected — no
ticket. -/
theorem wvip_c7_boundary (nowUs : ℤ) (dataT : SessionData) (rawText cap : List Nat)
    (a : ℚ) (ht : scanNumber (pyStrip rawText) = some a) (hc : scanNumber cap = some a) :
    (a = 50 →
      (processVerificationStep true nowUs ⟨.derivVip, 5, dataT⟩ rawText).ticket =
        some ⟨str "Deriv VIP", a, dataT.cr⟩ ∧
      (processVerificationStep true nowUs ⟨.mentorship, 3, dataT⟩ rawText).ticket =
        some ⟨str "Free Mentorship", a, dataT.cr⟩ ∧
      (handlePhoto true (some ⟨.derivVip, 4, dataT⟩) (some cap)).ticket =
        some ⟨str "Deriv VIP", a, dataT.cr⟩ ∧
      (handlePhoto true (some ⟨.derivVip, 31, dataT⟩) (some cap)).ticket =
        some ⟨str "Deriv VIP", a, dataT.cr⟩ ∧
      (handlePhoto true (some ⟨.mentorship, 2, dataT⟩) (some cap)).ticket =
        some ⟨str "Free Mentorship", a, dataT.cr⟩) ∧
    (a < 50 →
      (processVerificationStep true nowUs ⟨.derivVip, 5, dataT⟩ rawText).ticket = none ∧
      (processVerificationStep true nowUs ⟨.mentorship, 3, dataT⟩ rawText).ticket = none ∧
      (handlePhoto true (some ⟨.derivVip, 4, dataT⟩) (some cap)).ticket = none ∧
      (handlePhoto true (some ⟨.derivVip, 31, dataT⟩) (some cap)).ticket = none ∧
      (handlePhoto true (some ⟨.mentorship, 2, dataT⟩) (some cap)).ticket = none) := by
  constructor
  · rintro rfl
    simp [processVerificationStep, handlePhoto, ht, hc, REQUIRED_DERIV_DEPOSIT]
  · intro hlt
    have hnle : ¬ ((50 : ℚ) ≤ a) := not_le.mpr hlt
    simp [processVerificationStep, handlePhoto, ht, hc, REQUIRED_DERIV_DEPOSIT, hlt, hnle]

/-- Witness for C7: `"50"` is accepted, `"49.99"` is rejected. -/
theorem wvip_c7_witness :
    (processVerificationStep true 0 ⟨.derivVip, 5, ⟨none, some (str "CR5499637")⟩⟩
        (str "50")).ticket = some ⟨str "Deriv VIP", 50, some (str "CR5499637")⟩ ∧
    (processVerificationStep true 0 ⟨.derivVip, 5, ⟨none, some (str "CR5499637")⟩⟩
        (str "49.99")).ticket = none :=
  ⟨((wvip_c7_boundary 0 ⟨none, some (str "CR5499637")⟩ (str "50") (str "50") 50
      (by decide) (by decide)).1 rfl).1,
    ((wvip_c7_boundary 0 ⟨none, some (str "CR5499637")⟩ (str "49.99") (str "49.99")
      (mkRat 4999 100) (by decide) (by decide)).2 (by decide)).1⟩

/-! ## Photo at a Broker-VIP proof step (C1) -/

/-- C1 (counterexample to the claim as stated): a photo whose caption
parses to an amount below the minimum does NOT abort — the session is
not destroyed; it is moved to the deposit-amount step instead. -/
theorem wvip_c1_counterexample :
    (handlePhoto true (some ⟨.derivVip, 4, ⟨none, some (str "CR5499637")⟩⟩)
        (some (str "30"))).session =
      some ⟨.derivVip, 5, ⟨none, some (str "CR5499637")⟩⟩ ∧
    ¬ ((handlePhoto true (some ⟨.derivVip, 4, ⟨none, some (str "CR5499637")⟩⟩)
        (some (str "30"))).session = none) ∧
    (handlePhoto true (some ⟨.derivVip, 4, ⟨none, some (str "CR5499637")⟩⟩)
        (some (str "30"))).ticket = none := by
  decide

/-- C1 (amended): at a Broker-VIP proof step (4 or 31), a photo whose
caption parses to an amount at or above the minimum yields SUCCESS
(ticket created, session destroyed); a caption parsing below the
minimum, or containing no parseable number, moves the session to
AWAIT_DEPOSIT_AMOUNT (step 5) — it does not abort. -/
theorem wvip_c1_amended (dataT : SessionData) (st : Nat) (cap : List Nat) (a : ℚ)
    (hst : st = 4 ∨ st = 31) :
    (scanNumber cap = some a → 50 ≤ a →
      handlePhoto true (some ⟨.derivVip, st, dataT⟩) (some cap) =
        ⟨none, some ⟨str "Deriv VIP", a, dataT.cr⟩, [.screenshotReceived, .vipSuccess]⟩) ∧
    (scanNumber cap = some a → a < 50 →
      handlePhoto true (some ⟨.derivVip, st, dataT⟩) (some cap) =
        ⟨some ⟨.derivVip, 5, dataT⟩, none, [.screenshotReceived, .sendDepositAmountVip]⟩) ∧
    (scanNumber cap = none →
      handlePhoto true (some ⟨.derivVip, st, dataT⟩) (some cap) =
        ⟨some ⟨.derivVip, 5, dataT⟩, none, [.screenshotReceived, .sendDepositAmountVip]⟩) := by
  refine ⟨fun hc ha => ?_, fun hc ha => ?_, fun hc => ?_⟩
  · simp [handlePhoto, hc, hst, REQUIRED_DERIV_DEPOSIT, ha]
  · have hnle : ¬ ((50 : ℚ) ≤ a) := not_le.mpr ha
    simp [handlePhoto, hc, hst, REQUIRED_DERIV_DEPOSIT, hnle]
  · simp [handlePhoto, hc, hst]

/-- Witness for C1 (amended): caption `"deposit 60"` succeeds at step 4;
caption `"30"` moves to step 5. -/
theorem wvip_c1_amended_witness :
    handlePhoto true (some ⟨.derivVip, 4, ⟨none, some (str "CR5499637")⟩⟩)
        (some (str "deposit 60")) =
      ⟨none, some ⟨str "Deriv VIP", 60, some (str "CR5499637")⟩,
        [.screenshotReceived, .vipSuccess]⟩ ∧
    handlePhoto true (some ⟨.derivVip, 4, ⟨none, some (str "CR5499637")⟩⟩)
        (some (str "30")) =
      ⟨some ⟨.derivVip, 5, ⟨none, some (str "CR5499637")⟩⟩, none,
        [.screenshotReceived, .sendDepositAmountVip]⟩ :=
  ⟨(wvip_c1_amended ⟨none, some (str "CR5499637")⟩ 4 (str "deposit 60") 60
      (Or.inl rfl)).1 (by decide) (by decide),
    ((wvip_c1_amended ⟨none, some (str "CR5499637")⟩ 4 (str "30") (mkRat 30 1)
      (Or.inl rfl)).2).1 (by decide) (by decide)⟩

/-! ## Persistence failure during ticket creation (C4) -/

/-- C4 (counterexample to the claim as stated): when the persistence
write raises at the Broker-VIP deposit step, the session and its fields
are indeed preserved, but NO message is surfaced to the user — the
reply list is empty (the exception propagates and is only logged by the
framework; no retry-later reply exists in the code). -/
theorem wvip_c4_counterexample :
    processVerificationStep false 0 ⟨.derivVip, 5, ⟨none, some (str "CR5499637")⟩⟩
        (str "60") =
      ⟨some ⟨.derivVip, 5, ⟨none, some (str "CR5499637")⟩⟩, none, []⟩ ∧
    (processVerificationStep false 0 ⟨.derivVip, 5, ⟨none, some (str "CR5499637")⟩⟩
        (str "60")).replies = [] := by
  exact ⟨by decide, by decide⟩

/-- C4 (amended): if the persistence write fails at any SUCCESS site,
the session and its collected fields are left intact (the user can
resubmit), no ticket results, and no reply is sent from that point on
(no retry-later message exists; the error is only logged). -/
theorem wvip_c4_amended (nowUs : ℤ) (dataT : SessionData) (rawText cap : List Nat)
    (a : ℚ) (st : Nat) (ht : scanNumber (pyStrip rawText) = some a) (ha : 50 ≤ a) :
    processVerificationStep false nowUs ⟨.derivVip, 5, dataT⟩ rawText =
      ⟨some ⟨.derivVip, 5, dataT⟩, none, []⟩ ∧
    processVerificationStep false nowUs ⟨.mentorship, 3, dataT⟩ rawText =
      ⟨some ⟨.mentorship, 3, dataT⟩, none, []⟩ ∧
    (scanNumber cap = some a → st = 4 ∨ st = 31 →
      handlePhoto false (some ⟨.derivVip, st, dataT⟩) (some cap) =
        ⟨some ⟨.derivVip, st, dataT⟩, none, [.screenshotReceived]⟩) ∧
    (scanNumber cap = some a →
      handlePhoto false (some ⟨.mentorship, 2, dataT⟩) (some cap) =
        ⟨some ⟨.mentorship, 2, dataT⟩, none, [.screenshotReceived]⟩) := by
  have hnlt : ¬ (a < 50) := not_lt.mpr ha
  refine ⟨?_, ?_, fun hc hst => ?_, fun hc => ?_⟩
  · simp [processVerificationStep, ht, REQUIRED_DERIV_DEPOSIT, hnlt]
  · simp [processVerificationStep, ht, hnlt]
  · simp [handlePhoto, hc, hst, REQUIRED_DERIV_DEPOSIT, ha]
  · simp [handlePhoto, hc, ha]

/-- Witness for C4 (amended): amount `"60"` with the write failing. -/
theorem wvip_c4_amended_witness :
    processVerificationStep false 0 ⟨.derivVip, 5, ⟨some 19723, some (str "CR5499637")⟩⟩
        (str "60") =
      ⟨some ⟨.derivVip, 5, ⟨some 19723, some (str "CR5499637")⟩⟩, none, []⟩ ∧
    handlePhoto false (some ⟨.mentorship, 2, ⟨none, none⟩⟩) (some (str "80")) =
      ⟨some ⟨.mentorship, 2, ⟨none, none⟩⟩, none, [.screenshotReceived]⟩ :=
  ⟨(wvip_c4_amended 0 ⟨some 19723, some (str "CR5499637")⟩ (str "60") (str "60") 60 4
      (by decide) (by decide)).1,
    ((wvip_c4_amended 0 ⟨none, none⟩ (str "80") (str "80") 80 4
      (by decide) (by decide)).2.2.2) (by decide)⟩

/-! ## Malformed input is non-advancing (C3) -/

/-- "Malformed or unrecognized text input" at each step of each flow,
as the respective validation in `process_verification_step` classifies
it (`text` is the already-stripped inbound text).  At the mentorship
proof step (step 2) and at steps outside the machine, no text input is
handled by a re-prompt, so no input counts as merely malformed there. -/
def isMalformed (flow : Flow) (step : Nat) (text : List Nat) : Prop :=
  match flow with
  | .derivVip =>
    if step = 1 then pyLower text ∉ [str "yes", str "no", str "y", str "n"]
    else if step = 2 then parseDate text = none
    else if step = 3 then isCRFormat (pyUpper text) = false
    else if step = 30 then pyLower text ∉ [str "yes", str "no", str "y", str "n"]
    else if step = 4 ∨ step = 31 then True
    else if step = 5 then scanNumber text = none
    else False
  | .mentorship =>
    if step = 1 then pyLower text ≠ str "done" ∧ isCRFormat (pyUpper text) = false
    else if step = 3 then scanNumber text = none
    else False

/-- The re-prompt reply sent for malformed input at each step. -/
def repromptMsg (flow : Flow) (step : Nat) : Msg :=
  match flow with
  | .derivVip =>
    if step = 1 then .answerYesNo
    else if step = 2 then .dateFormatRetry
    else if step = 3 then .invalidCRFormat
    else if step = 30 then .replyYesNo
    else if step = 4 ∨ step = 31 then .sendAsImage
    else .sendAmountNumber
  | .mentorship =>
    if step = 1 then .provideValidCROrDone
    else .sendAmountPlain

/-- C3 (counterexample to the claim as stated): at the mentorship proof
step (step 2, non-terminal), a text with no parseable number does NOT
leave the session intact — the handler falls through to the
catch-all, which destroys the session. -/
theorem wvip_c3_counterexample :
    processVerificationStep true 0 ⟨.mentorship, 2, ⟨none, none⟩⟩ (str "hello") =
      ⟨none, none, [.didNotUnderstand]⟩ ∧
    ¬ ((processVerificationStep true 0 ⟨.mentorship, 2, ⟨none, none⟩⟩
        (str "hello")).session = some ⟨.mentorship, 2, ⟨none, none⟩⟩) := by
  decide

/-- C3 (amended): at every step with a re-prompting validation — every
non-terminal step except the mentorship proof step — malformed input
leaves the session untouched (same flow, step and fields, not
destroyed), creates no ticket, and only the step's re-prompt is sent;
hence resending the same malformed input any number of times has the
same non-advancing, non-mutating effect.  At the mentorship proof step,
any text instead destroys the session. -/
theorem wvip_c3_amended (insertOk : Bool) (nowUs : ℤ) (s : Session) (rawText : List Nat)
    (h : isMalformed s.flow s.step (pyStrip rawText)) :
    processVerificationStep insertOk nowUs s rawText =
      ⟨some s, none, [repromptMsg s.flow s.step]⟩ := by
  obtain ⟨flow, step, dataT⟩ := s
  cases flow with
  | derivVip =>
    simp only [isMalformed] at h
    by_cases h1 : step = 1
    · rw [if_pos h1] at h
      subst h1
      simp [processVerificationStep, repromptMsg, h]
    · rw [if_neg h1] at h
      by_cases h2 : step = 2
      · rw [if_pos h2] at h
        subst h2
        simp [processVerificationStep, repromptMsg, h]
      · rw [if_neg h2] at h
        by_cases h3 : step = 3
        · rw [if_pos h3] at h
          subst h3
          simp [processVerificationStep, repromptMsg, h]
        · rw [if_neg h3] at h
          by_cases h30 : step = 30
          · rw [if_pos h30] at h
            subst h30
            simp [processVerificationStep, repromptMsg, h]
          · rw [if_neg h30] at h
            by_cases h45 : step = 4 ∨ step = 31
            · simp [processVerificationStep, repromptMsg, h1, h2, h3, h30, h45]
            · rw [if_neg h45] at h
              by_cases h5 : step = 5
              · rw [if_pos h5] at h
                subst h5
                simp [processVerificationStep, repromptMsg, h]
              · rw [if_neg h5] at h
                exact h.elim
  | mentorship =>
    simp only [isMalformed] at h
    by_cases h1 : step = 1
    · rw [if_pos h1] at h
      subst h1
      simp [processVerificationStep, repromptMsg, h.1, h.2]
    · rw [if_neg h1] at h
      by_cases h3 : step = 3
      · rw [if_pos h3] at h
        subst h3
        simp [processVerificationStep, repromptMsg, h]
      · rw [if_neg h3] at h
        exact h.elim

/-- Witness for C3 (amended): the unparseable date `"tomorrow"` at
AWAIT_CREATION_DATE re-prompts without touching the session. -/
theorem wvip_c3_amended_witness :
    processVerificationStep true 0 ⟨.derivVip, 2, ⟨none, some (str "CR5499637")⟩⟩
        (str "tomorrow") =
      ⟨some ⟨.derivVip, 2, ⟨none, some (str "CR5499637")⟩⟩, none, [.dateFormatRetry]⟩ :=
  wvip_c3_amended true 0 ⟨.derivVip, 2, ⟨none, some (str "CR5499637")⟩⟩ (str "tomorrow")
    (by unfold isMalformed; decide)

end SupportBot
